import Mathlib

/-!
Verification development for the FeedGuardian evidence crawler
(`scripts/capture.py`).

The script drives a browser over product pages and produces one evidence
record per page.  We use a shallow embedding: every awaited browser
interaction (navigation, screenshot, locator count, attribute read, text
read) is an oracle value of type `Except PyErr α` recorded in a
`PageModel`; the Python `try`/`except`/`finally` control flow is
translated into explicit sequencing over a state of evidence fields.
External collaborators (the browser engine, the HTML/JSON parser, the
SHA-1 library, `urljoin`, the filesystem) are modelled as data or as
function parameters, exactly as the specification's scope section treats
them.  All pure logic (keyword matching, the currency regular
expression, JSON-LD block selection, slug construction) is translated
directly from the source.
-/

/-- A raised Python exception: class name, message, and whether it is a
playwright `TimeoutError` (the only class that is caught selectively). -/
structure PyErr where
  name : String
  msg : String
  isPWTimeout : Bool := false
deriving Repr, DecidableEq

/-- JSON-like values returned by `json.loads` for ld+json blocks.
Numbers are modelled as integers (no claim involves floats).  A JSON
`null` stored in a dict is Python `None`, matching `json.loads`. -/
inductive Json where
  | null
  | bool (b : Bool)
  | num (n : Int)
  | str (s : String)
  | arr (xs : List Json)
  | obj (fields : List (String × Json))
deriving Repr, BEq

instance : Inhabited Json := ⟨Json.null⟩

/-- Python truthiness of a JSON value (`if v:`). -/
def Json.truthy : Json → Bool
  | .null => false
  | .bool b => b
  | .num n => n != 0
  | .str s => s != ""
  | .arr xs => !xs.isEmpty
  | .obj fs => !fs.isEmpty

def Json.isObj : Json → Bool
  | .obj _ => true
  | _ => false

/-- Python `dict.get k` on a parsed JSON object (only meaningful for
`obj`; the call sites model the `AttributeError` on non-dicts
separately). -/
def Json.objGet (j : Json) (k : String) : Option Json :=
  match j with
  | .obj fs => fs.lookup k
  | _ => none

mutual
/-- Python `repr` of a parsed-JSON value, used by `str` on containers. -/
def pyRepr : Json → String
  | .null => "None"
  | .bool b => if b then "True" else "False"
  | .num n => toString n
  | .str s => "'" ++ s ++ "'"
  | .arr xs => "[" ++ String.intercalate ", " (pyReprList xs) ++ "]"
  | .obj fs => "\x7b" ++ String.intercalate ", " (pyReprFields fs) ++ "\x7d"

def pyReprList : List Json → List String
  | [] => []
  | x :: xs => pyRepr x :: pyReprList xs

def pyReprFields : List (String × Json) → List String
  | [] => []
  | (k, v) :: fs => ("'" ++ k ++ "': " ++ pyRepr v) :: pyReprFields fs
end

/-- Python `str` applied to a parsed-JSON value. -/
def pyStr : Json → String
  | .str s => s
  | j => pyRepr j

def prefixOfB : List Char → List Char → Bool
  | [], _ => true
  | _ :: _, [] => false
  | a :: as, b :: bs => a == b && prefixOfB as bs

def infixOfB (sub : List Char) : List Char → Bool
  | [] => prefixOfB sub []
  | b :: bs => prefixOfB sub (b :: bs) || infixOfB sub bs

/-- Python's substring test `sub in s`. -/
def strContains (s sub : String) : Bool :=
  infixOfB sub.toList s.toList

/-- Python `any(k in text for k in ks)`. -/
def hasKeyword (text : String) (ks : List String) : Bool :=
  ks.any (fun k => strContains text k)

/-- ASCII whitespace: matched by `\s`, stripped by `str.strip`. -/
def isPySpace (c : Char) : Bool :=
  c = ' ' || c = '\t' || c = '\n' || c = '\r' || c = '\x0b' || c = '\x0c'

/-- Python `str.lower()` (character-list based so that concrete runs
evaluate inside the kernel). -/
def pyLower (s : String) : String := String.mk (s.toList.map Char.toLower)

/-- Python `str.strip()`. -/
def pyStrip (s : String) : String :=
  String.mk (((s.toList.dropWhile isPySpace).reverse.dropWhile isPySpace).reverse)

/-- Python slicing `s[:n]`. -/
def strTake (s : String) (n : Nat) : String := String.mk (s.toList.take n)

/-- The out-of-stock keywords checked against the lowercased body text
(source: the inline list in the availability fallback). -/
def OOS_TEXT_KEYWORDS : List String :=
  ["out of stock", "sold out", "unavailable"]

/-- The in-stock keywords checked against the lowercased body text
(source: the inline list in the availability fallback). -/
def IN_STOCK_TEXT_KEYWORDS : List String :=
  ["in stock", "available", "ships", "ready to ship", "add to cart",
   "add to bag", "add to basket"]

/-- Keywords that mark the footer as a returns section
(source: `RETURNS_HINTS`). -/
def RETURNS_HINTS : List String := ["return", "refund", "exchange"]

/-- The visible-availability resolution over the body text and the
inferred add-to-cart button state (source: the availability `try`
block). -/
def resolveAvailabilityText (t : String) (btn_enabled : Option Bool) : Option String :=
  let text_low := pyLower t
  if hasKeyword text_low OOS_TEXT_KEYWORDS then some "OUT_OF_STOCK"
  else if hasKeyword text_low IN_STOCK_TEXT_KEYWORDS then some "IN_STOCK"
  else
    match btn_enabled with
    | some b => some (if b then "IN_STOCK" else "OUT_OF_STOCK")
    | none => none

/-! ## The currency regular expression

`(?:\$|£|€)\s?\d[\d,]*(?:\.\d{2})?` with `re.search` (leftmost match,
greedy quantifiers).  `[\d,]*` cannot consume `.`, so no backtracking
interaction arises between the quantifiers. -/

def isCurrencySym (c : Char) : Bool := c = '$' || c = '£' || c = '€'

def isDigitOrComma (c : Char) : Bool := c.isDigit || c = ','

/-- Matches `\d[\d,]*(?:\.\d{2})?` at the head of `cs`, returning the
matched characters. -/
def takeAmount (cs : List Char) : Option (List Char) :=
  match cs with
  | [] => none
  | d :: rest =>
    if d.isDigit then
      let body := rest.takeWhile isDigitOrComma
      let rest2 := rest.dropWhile isDigitOrComma
      let dec : List Char :=
        match rest2 with
        | '.' :: a :: b :: _ => if a.isDigit && b.isDigit then ['.', a, b] else []
        | _ => []
      some (d :: (body ++ dec))
    else none

/-- Matches the whole currency pattern at the head of `cs`. -/
def priceMatchAt (cs : List Char) : Option (List Char) :=
  match cs with
  | [] => none
  | c :: rest =>
    if isCurrencySym c then
      match rest with
      | [] => none
      | s :: rest2 =>
        if isPySpace s then
          match takeAmount rest2 with
          | some m => some (c :: s :: m)
          | none => none
        else
          match takeAmount rest with
          | some m => some (c :: m)
          | none => none
    else none

/-- `re.search` of the currency pattern: the leftmost match. -/
def searchPrice : List Char → Option String
  | [] => none
  | c :: rest =>
    match priceMatchAt (c :: rest) with
    | some m => some (String.mk m)
    | none => searchPrice rest

def searchPriceStr (s : String) : Option String := searchPrice s.toList

/-! ## JSON-LD extraction -/

/-- `find_json_ld`: the document's `ld+json` script blocks after the
library parse; `none` is a block whose parse raised (or was empty) and
is skipped; a parsed top-level list is spliced (`out.extend`), any other
value appended (source: `find_json_ld`). -/
def find_json_ld : List (Option Json) → List Json
  | [] => []
  | none :: rest => find_json_ld rest
  | some (.arr xs) :: rest => xs ++ find_json_ld rest
  | some j :: rest => j :: find_json_ld rest

/-- `pick_first`: the first key whose value is truthy (source:
`pick_first`). -/
def pick_first (dct : Json) (keys : List String) : Option Json :=
  match keys with
  | [] => none
  | k :: ks =>
    match dct.objGet k with
    | some v => if v.truthy then some v else pick_first dct ks
    | none => pick_first dct ks

/-- All elements of a JSON list as strings, if they all are strings. -/
def getStrs : List Json → Option (List String)
  | [] => some []
  | .str s :: xs => (getStrs xs).map (fun ss => s :: ss)
  | _ => none

/-- The `@type` normalisation
`",".join(t) if isinstance(t, list) else (str(t) if t else "")`;
joining a list with a non-string element raises `TypeError`. -/
def typeTagString (t : Option Json) : Except PyErr String :=
  match t with
  | some (.arr xs) =>
    match getStrs xs with
    | some ss => .ok (String.intercalate "," ss)
    | none => .error ⟨"TypeError", "sequence item: expected str instance", false⟩
  | some j => .ok (if j.truthy then pyStr j else "")
  | none => .ok ""

/-- The offer extracted from a selected Product block:
`pick_first(block, ["offers", "Offers"])`, then the first element when
that value is a non-empty list. -/
def offerOf (block : Json) : Option Json :=
  match pick_first block ["offers", "Offers"] with
  | some (.arr (x :: _)) => some x
  | o => o

/-- The JSON-LD loop: the first block whose normalised `@type` contains
`"Product"` (case-sensitive), paired with its extracted offer.  A
non-dict block raises `AttributeError` before anything is selected; a
bad `@type` raises `TypeError`. -/
def schemaPass : List Json → Except PyErr (Option (Json × Option Json))
  | [] => .ok none
  | block :: rest =>
    if block.isObj then
      match typeTagString (block.objGet "@type") with
      | .error e => .error e
      | .ok t_str =>
        if strContains t_str "Product" then .ok (some (block, offerOf block))
        else schemaPass rest
    else .error ⟨"AttributeError", "object has no attribute get", false⟩

/-! ## Slug resolver -/

/-- The path component of `urllib.parse.urlparse`: strip the fragment,
strip the query, strip a leading `scheme:`, strip a `//netloc`. -/
def isSchemeChar (c : Char) : Bool := c.isAlphanum || c = '+' || c = '-' || c = '.'

def stripScheme (u : String) : String :=
  let cs := u.toList
  let before := cs.takeWhile (fun c => c ≠ ':')
  let after := cs.dropWhile (fun c => c ≠ ':')
  match after with
  | ':' :: rest =>
    match before with
    | c :: cs2 => if c.isAlpha && (c :: cs2).all isSchemeChar then String.mk rest else u
    | [] => u
  | _ => u

def splitOnChar (c : Char) : List Char → List (List Char)
  | [] => [[]]
  | x :: rest =>
    if x = c then [] :: splitOnChar c rest
    else
      match splitOnChar c rest with
      | [] => [[x]]
      | g :: gs => (x :: g) :: gs

def urlPath (url : String) : String :=
  let u := String.mk (url.toList.takeWhile (fun c => c ≠ '#'))
  let u := String.mk (u.toList.takeWhile (fun c => c ≠ '?'))
  let u := stripScheme u
  if prefixOfB ['/', '/'] u.toList then
    String.mk ((u.toList.drop 2).dropWhile (fun c => c ≠ '/'))
  else u

/-- `pathlib.PurePosixPath(p).name`: last component after dropping empty
and `"."` components. -/
def pathName (p : String) : String :=
  let comps := (splitOnChar '/' p.toList).map String.mk
  ((comps.filter (fun s => s != "" && s != ".")).getLast?).getD ""

/-- `slugify`, parameterised by the SHA-1 hex digest (external library
capability; `sha1hex url` models `hashlib.sha1(url.encode()).hexdigest()`).
Source: `slugify`. -/
def slugify (sha1hex : String → String) (url : String) : String :=
  let h := strTake (sha1hex url) 10
  let base := if pathName (urlPath url) == "" then "product" else pathName (urlPath url)
  base ++ "-" ++ h

/-- Models `urllib.parse.urljoin` as an external library call: an href
carrying a scheme separator is kept, otherwise it is resolved against
the base.  No claim depends on its internals; only on whether the field
is null. -/
def urljoin (base href : String) : String :=
  if strContains href "://" then href else base ++ href

/-! ## The page oracle

One field per awaited browser interaction of `capture_single`, in source
order.  `.error e` means that call raised `e`.  Defaults describe an
empty page on which every call succeeds, so concrete instances only
override what a scenario needs.  `ensure_dir` and the final
`evidence.json` write are filesystem externals and are not failure
points of the model; the record value returned *is* the written
record. -/
structure PageModel where
  /-- `pw.chromium.launch` -/
  launchRes : Except PyErr Unit := .ok ()
  /-- `browser.new_context` (receives the rotated user agent) -/
  newContextRes : Except PyErr Unit := .ok ()
  /-- `context.new_page` -/
  newPageRes : Except PyErr Unit := .ok ()
  /-- `page.goto(url, wait_until="domcontentloaded")` -/
  gotoRes : Except PyErr Unit := .ok ()
  /-- `page.wait_for_load_state("networkidle")` -/
  networkIdleRes : Except PyErr Unit := .ok ()
  /-- `page.wait_for_timeout(800)` -/
  waitTimeoutRes : Except PyErr Unit := .ok ()
  /-- `page.screenshot(00-full.png)` -/
  fullShotRes : Except PyErr Unit := .ok ()
  /-- count of the currency-text price region locator -/
  priceRegionCount : Except PyErr Nat := .ok 0
  priceRegionShot : Except PyErr Unit := .ok ()
  /-- count of the price-class CSS locator -/
  cssPriceCount : Except PyErr Nat := .ok 0
  cssPriceShot : Except PyErr Unit := .ok ()
  /-- count of the add-to-cart/buy-now role locator -/
  atcRoleCount : Except PyErr Nat := .ok 0
  atcRoleShot : Except PyErr Unit := .ok ()
  /-- count of the availability-text locator -/
  availRegionCount : Except PyErr Nat := .ok 0
  availRegionShot : Except PyErr Unit := .ok ()
  /-- count of the add-to-cart button locator -/
  atcBtnCount : Except PyErr Nat := .ok 0
  /-- `atc_btn.get_attribute("disabled")` -/
  disabledAttrRes : Except PyErr (Option String) := .ok none
  /-- `atc_btn.get_attribute("aria-disabled")` -/
  ariaDisabledRes : Except PyErr (Option String) := .ok none
  atcBtnShot : Except PyErr Unit := .ok ()
  /-- first `page.locator("body").inner_text()` (availability fallback) -/
  bodyText1Res : Except PyErr String := .ok ""
  variantCount : Except PyErr Nat := .ok 0
  variantShot : Except PyErr Unit := .ok ()
  /-- `context.new_page()` for the returns page -/
  returnsNewPageRes : Except PyErr Unit := .ok ()
  returnsGotoRes : Except PyErr Unit := .ok ()
  returnsShotRes : Except PyErr Unit := .ok ()
  /-- `rpage.close()` in the inner `finally` -/
  returnsCloseRes : Except PyErr Unit := .ok ()
  footerCountRes : Except PyErr Nat := .ok 0
  /-- `footer.inner_text()` for the returns-hint check -/
  footerTextRes : Except PyErr String := .ok ""
  footerReturnsShotRes : Except PyErr Unit := .ok ()
  /-- second `page.locator("footer").count()` -/
  footer2CountRes : Except PyErr Nat := .ok 0
  footer2ShotRes : Except PyErr Unit := .ok ()
  /-- first `page.content()` + document parse (result unused by later code) -/
  content1Res : Except PyErr Unit := .ok ()
  /-- `page.title()` -/
  titleRes : Except PyErr String := .ok ""
  /-- `page.locator("h1").first.inner_text()` -/
  h1Res : Except PyErr String := .ok ""
  /-- canonical link `get_attribute("href")` -/
  canonHrefRes : Except PyErr (Option String) := .ok none
  /-- `page.url` after navigation -/
  pageUrl : String := ""
  /-- price-labelled element `inner_text()` -/
  priceNodeTextRes : Except PyErr String := .ok ""
  /-- second `page.locator("body").inner_text()` (price fallback) -/
  bodyText2Res : Except PyErr String := .ok ""
  /-- second `page.content()` + parse: the ld+json script blocks, each
  `none` if its `json.loads` raised (skipped) -/
  content2Res : Except PyErr (List (Option Json)) := .ok []
  /-- price meta tag `get_attribute("content")` -/
  metaPriceRes : Except PyErr (Option String) := .ok none
  /-- currency meta tag `get_attribute("content")` -/
  metaCurrRes : Except PyErr (Option String) := .ok none
  /-- `context.close()` in the outer `finally` -/
  contextCloseRes : Except PyErr Unit := .ok ()
  /-- `browser.close()` in the outer `finally` -/
  browserCloseRes : Except PyErr Unit := .ok ()
deriving Repr

/-- The mutable evidence fields of the record (the `url` and `ts` keys
are set once at creation and never touched by the pipeline). -/
structure Fields where
  title : Option String := none
  canonical : Option String := none
  visible_price : Option String := none
  visible_availability : Option String := none
  schema_product : Json := Json.null
  schema_offer : Json := Json.null
  errors : List String := []
deriving Repr

def initFields : Fields := {}

/-- The persisted evidence record (`evidence` dict). -/
structure Evidence where
  url : String
  ts : Int
  title : Option String
  canonical : Option String
  visible_price : Option String
  visible_availability : Option String
  schema_product : Json
  schema_offer : Json
  errors : List String
deriving Repr

/-- Result of running a prefix of the protected block: the fields as
mutated so far, and the uncaught exception if one was raised. -/
abbrev TryRes := Fields × Option PyErr

/-- A section of the protected block. -/
abbrev SecT := Fields → TryRes

/-- Sequencing inside the protected block: a raise skips the rest. -/
def seqS (a b : SecT) : SecT := fun fs =>
  match a fs with
  | (fs1, none) => b fs1
  | (fs1, some e) => (fs1, some e)

/-- One awaited call whose value is unused. -/
def callUnit (x : Except PyErr Unit) : SecT := fun fs =>
  match x with
  | .ok _ => (fs, none)
  | .error e => (fs, some e)

/-- A section that does nothing. -/
def skipS : SecT := fun fs => (fs, none)

/-- `if count > 0: screenshot else: els` pattern. -/
def countShot (cnt : Except PyErr Nat) (shot : Except PyErr Unit) (els : SecT) : SecT := fun fs =>
  match cnt with
  | .error e => (fs, some e)
  | .ok n =>
    if n > 0 then
      match shot with
      | .error e => (fs, some e)
      | .ok _ => (fs, none)
    else els fs

/-- The inner `networkidle` wait: `except PWTimeout: pass`. -/
def netIdleSec (pm : PageModel) : SecT := fun fs =>
  match pm.networkIdleRes with
  | .ok _ => (fs, none)
  | .error e => if e.isPWTimeout then (fs, none) else (fs, some e)

/-- The price-region screenshot cascade: currency text, else price CSS,
else add-to-cart role. -/
def priceShotSec (pm : PageModel) : SecT :=
  countShot pm.priceRegionCount pm.priceRegionShot
    (countShot pm.cssPriceCount pm.cssPriceShot
      (countShot pm.atcRoleCount pm.atcRoleShot skipS))

/-- `btn_enabled` from the two attribute reads inside the bare
`try`/`except`; any raise yields `None`. -/
def btnEnabledOf (pm : PageModel) : Option Bool :=
  match pm.disabledAttrRes, pm.ariaDisabledRes with
  | .ok d, .ok a => some (d.isNone && a != some "true" && a != some "1")
  | _, _ => none

/-- The availability value computed inside the
`try`/`except: ... = None` block. -/
def availTextValue (pm : PageModel) (btn_enabled : Option Bool) : Option String :=
  match pm.bodyText1Res with
  | .error _ => none
  | .ok t => resolveAvailabilityText t btn_enabled

def availTextSec (pm : PageModel) (btn_enabled : Option Bool) : SecT := fun fs =>
  ({fs with visible_availability := availTextValue pm btn_enabled}, none)

/-- The add-to-cart button block: infer `btn_enabled`, screenshot the
button if no availability shot was taken, then resolve the visible
availability text. -/
def atcBtnSec (pm : PageModel) (got_avail_shot : Bool) : SecT := fun fs =>
  match pm.atcBtnCount with
  | .error e => (fs, some e)
  | .ok n =>
    if n > 0 then
      if got_avail_shot then availTextSec pm (btnEnabledOf pm) fs
      else
        match pm.atcBtnShot with
        | .error e => (fs, some e)
        | .ok _ => availTextSec pm (btnEnabledOf pm) fs
    else availTextSec pm none fs

/-- The availability region screenshot followed by the button block. -/
def availabilitySec (pm : PageModel) : SecT := fun fs =>
  match pm.availRegionCount with
  | .error e => (fs, some e)
  | .ok n =>
    if n > 0 then
      match pm.availRegionShot with
      | .error e => (fs, some e)
      | .ok _ => atcBtnSec pm true fs
    else atcBtnSec pm false fs

def variantSec (pm : PageModel) : SecT :=
  countShot pm.variantCount pm.variantShot skipS

/-- The supplied-returns-URL branch: a second page under `try`/`finally`
(a close failure masks the original raise). -/
def returnsPageSec (pm : PageModel) : SecT := fun fs =>
  match pm.returnsNewPageRes with
  | .error e => (fs, some e)
  | .ok _ =>
    match pm.returnsGotoRes with
    | .error e =>
      (match pm.returnsCloseRes with
       | .error e2 => (fs, some e2)
       | .ok _ => (fs, some e))
    | .ok _ =>
      match pm.returnsShotRes with
      | .error e =>
        (match pm.returnsCloseRes with
         | .error e2 => (fs, some e2)
         | .ok _ => (fs, some e))
      | .ok _ =>
        match pm.returnsCloseRes with
        | .error e2 => (fs, some e2)
        | .ok _ => (fs, none)

/-- The footer-hint branch: screenshot the footer when its first 500
characters contain a returns hint. -/
def footerHintSec (pm : PageModel) : SecT := fun fs =>
  match pm.footerCountRes with
  | .error e => (fs, some e)
  | .ok n =>
    if n > 0 then
      match pm.footerTextRes with
      | .error e => (fs, some e)
      | .ok t =>
        if hasKeyword (pyLower (strTake t 500)) RETURNS_HINTS then
          match pm.footerReturnsShotRes with
          | .error e => (fs, some e)
          | .ok _ => (fs, none)
        else (fs, none)
    else (fs, none)

/-- The returns capture: a supplied (truthy) returns URL takes the
second-page branch, otherwise the footer-hint branch. -/
def returnsSec (ru : Option String) (pm : PageModel) : SecT := fun fs =>
  let hasRu : Bool := match ru with | some r => r != "" | none => false
  if hasRu then returnsPageSec pm fs else footerHintSec pm fs

def footerSec (pm : PageModel) : SecT :=
  countShot pm.footer2CountRes pm.footer2ShotRes skipS

/-- The title resolution: `page.title()` under a bare `try` (a raise
sets the field to `None`), then the `h1` fallback when the field is
falsy, under `except Exception: pass`. -/
def titleValue (pm : PageModel) (old : Option String) : Option String :=
  let t1 : Option String :=
    match pm.titleRes with
    | .error _ => none
    | .ok t => if t != "" && pyStrip t != "" then some (pyStrip t) else old
  let falsy : Bool := match t1 with | none => true | some s => s == ""
  if falsy then
    match pm.h1Res with
    | .error _ => t1
    | .ok h => if h != "" then some (pyStrip h) else none
  else t1

def titleSec (pm : PageModel) : SecT := fun fs =>
  ({fs with title := titleValue pm fs.title}, none)

/-- The canonical link resolved against `page.url`; a raise or a falsy
href yields `None`. -/
def canonicalValue (pm : PageModel) : Option String :=
  match pm.canonHrefRes with
  | .error _ => none
  | .ok (some href) => if href == "" then none else some (urljoin pm.pageUrl href)
  | .ok none => none

def canonicalSec (pm : PageModel) : SecT := fun fs =>
  ({fs with canonical := canonicalValue pm}, none)

/-- The body-text price fallback; this read is *not* protected by a
field-scope `try`. -/
def bodyPriceSec (pm : PageModel) : SecT := fun fs =>
  match pm.bodyText2Res with
  | .error e => (fs, some e)
  | .ok t => ({fs with visible_price := searchPriceStr t}, none)

/-- The visible-price resolution: the price-labelled element text (a
raise yields `None`), the first currency match in it when it is truthy,
else the body-text fallback. -/
def priceSec (pm : PageModel) : SecT := fun fs =>
  let node_price : Option String :=
    match pm.priceNodeTextRes with
    | .error _ => none
    | .ok t => some t
  match node_price with
  | some t =>
    if t == "" then bodyPriceSec pm fs
    else ({fs with visible_price := searchPriceStr t}, none)
  | none => bodyPriceSec pm fs

def schemaErrStr (e : PyErr) : String := "schema_error:" ++ e.name ++ ":" ++ e.msg

def pageErrStr (e : PyErr) : String := "page_error:" ++ e.name ++ ":" ++ e.msg

/-- The price/currency meta-tag fallback value: both reads under one
`try` (a raise yields `None, None`); a truthy meta price yields the
offer record with `meta_curr or None` as currency. -/
def metaCurrJson (c : Option String) : Json :=
  match c with
  | some s => if s == "" then Json.null else Json.str s
  | none => Json.null

def metaOfferValue (pm : PageModel) : Option Json :=
  let mp_mc : Option String × Option String :=
    match pm.metaPriceRes, pm.metaCurrRes with
    | .ok p, .ok c => (p, c)
    | _, _ => (none, none)
  match mp_mc.1 with
  | some p =>
    if p == "" then none
    else some (Json.obj [("price", Json.str p), ("priceCurrency", metaCurrJson mp_mc.2)])
  | none => none

/-- The product snippet left by the structured-data pass alone. -/
def passProduct (found : Option (Json × Option Json)) : Json :=
  match found with
  | some (p, _) => p
  | none => Json.null

/-- The offer value left by the structured-data pass alone (a selected
block whose extracted offer is `None` stores Python `None`, i.e.
null). -/
def passOffer (found : Option (Json × Option Json)) : Json :=
  match found with
  | some (_, some j) => j
  | some (_, none) => Json.null
  | none => Json.null

/-- The whole JSON-LD section under its `except Exception` (which
appends a `schema_error` entry): the content read, the Product-block
loop, and the meta fallback gated on `not evidence["schema_offer"]`
(Python truthiness).  Returns (schema_product, schema_offer, appended
errors). -/
def schemaResolve (pm : PageModel) : Json × Json × List String :=
  match pm.content2Res with
  | .error e => (Json.null, Json.null, [schemaErrStr e])
  | .ok scripts =>
    match schemaPass (find_json_ld scripts) with
    | .error e => (Json.null, Json.null, [schemaErrStr e])
    | .ok found =>
      let prod : Json := passProduct found
      let off : Json := passOffer found
      if off.truthy then (prod, off, [])
      else
        match metaOfferValue pm with
        | some m => (prod, m, [])
        | none => (prod, off, [])

def schemaSec (pm : PageModel) : SecT := fun fs =>
  ({fs with
      schema_product := (schemaResolve pm).1,
      schema_offer := (schemaResolve pm).2.1,
      errors := fs.errors ++ (schemaResolve pm).2.2}, none)

/-- The protected block of `capture_single`, section by section in
source order. -/
def captureTry (ru : Option String) (pm : PageModel) : SecT :=
  seqS (callUnit pm.gotoRes) <|
  seqS (netIdleSec pm) <|
  seqS (callUnit pm.waitTimeoutRes) <|
  seqS (callUnit pm.fullShotRes) <|
  seqS (priceShotSec pm) <|
  seqS (availabilitySec pm) <|
  seqS (variantSec pm) <|
  seqS (returnsSec ru pm) <|
  seqS (footerSec pm) <|
  seqS (callUnit pm.content1Res) <|
  seqS (titleSec pm) <|
  seqS (canonicalSec pm) <|
  seqS (priceSec pm) (schemaSec pm)

/-- The record produced by one job whose browser setup and teardown
succeed: run the protected block, append `page_error` on an uncaught
raise, assemble the record (which the job then writes). -/
def jobRecord (url : String) (ru : Option String) (ts : Int) (pm : PageModel) : Evidence :=
  let r := captureTry ru pm initFields
  let fs1 : Fields :=
    match r.2 with
    | none => r.1
    | some e => {r.1 with errors := r.1.errors ++ [pageErrStr e]}
  { url := url, ts := ts, title := fs1.title, canonical := fs1.canonical,
    visible_price := fs1.visible_price,
    visible_availability := fs1.visible_availability,
    schema_product := fs1.schema_product, schema_offer := fs1.schema_offer,
    errors := fs1.errors }

/-- `capture_single`: browser setup (outside the `try`; a raise here
propagates to the caller), the protected block with its job-scope
handler, teardown in `finally` (a raise here propagates and the record
is not written), then the record is written and returned.  The
protected block is pure here, so checking the teardown outcomes before
assembling the record is observationally the same as running them
after it, as the source does.  `ua` is the user-agent drawn by
`random.choice` (externalised randomness) and `ts` the
`int(time.time())` stamp; the page oracle is independent of both,
which is the meaning of capturing fixed static content. -/
def capture_single (url : String) (returns_url : Option String) (ua : String)
    (ts : Int) (pm : PageModel) : Except PyErr Evidence :=
  match pm.launchRes with
  | .error e => .error e
  | .ok _ =>
  match pm.newContextRes with
  | .error e => .error e
  | .ok _ =>
  match pm.newPageRes with
  | .error e => .error e
  | .ok _ =>
  match pm.contextCloseRes with
  | .error e => .error e
  | .ok _ =>
  match pm.browserCloseRes with
  | .error e => .error e
  | .ok _ => .ok (jobRecord url returns_url ts pm)

/-- One row of the batch CSV together with the behaviour of its page. -/
structure BatchItem where
  url : String
  returns_url : Option String
  ua : String
  ts : Int
  pm : PageModel
deriving Repr

/-- The batch runner: every job runs `capture_single`; the results are
aggregated with `asyncio.gather(..., return_exceptions=False)`
semantics — all jobs ok yields their records in submission order,
an uncaught job exception makes the whole gather raise (modelled as the
first failing item in submission order).  The semaphore only bounds
concurrency and shares no data, so it does not appear in the model. -/
def batch : List BatchItem → Except PyErr (List Evidence)
  | [] => .ok []
  | it :: rest =>
    match capture_single it.url it.returns_url it.ua it.ts it.pm with
    | .error e => .error e
    | .ok ev =>
      match batch rest with
      | .error e => .error e
      | .ok evs => .ok (ev :: evs)

/-! ## Success predicates and the clean-run characterisation -/

def okB {α : Type} : Except PyErr α → Bool
  | .ok _ => true
  | .error _ => false

/-- Browser setup (before the `try`) succeeds. -/
def setupOk (pm : PageModel) : Bool :=
  okB pm.launchRes && okB pm.newContextRes && okB pm.newPageRes

/-- Browser teardown (the `finally`) succeeds. -/
def teardownOk (pm : PageModel) : Bool :=
  okB pm.contextCloseRes && okB pm.browserCloseRes

def netIdleOk (pm : PageModel) : Bool :=
  match pm.networkIdleRes with
  | .ok _ => true
  | .error e => e.isPWTimeout

def countShotOk (cnt : Except PyErr Nat) (shot : Except PyErr Unit) (elsOk : Bool) : Bool :=
  match cnt with
  | .error _ => false
  | .ok n => if n > 0 then okB shot else elsOk

def priceShotOk (pm : PageModel) : Bool :=
  countShotOk pm.priceRegionCount pm.priceRegionShot
    (countShotOk pm.cssPriceCount pm.cssPriceShot
      (countShotOk pm.atcRoleCount pm.atcRoleShot true))

def atcOkB (pm : PageModel) (got_avail_shot : Bool) : Bool :=
  match pm.atcBtnCount with
  | .error _ => false
  | .ok n => if n > 0 then (if got_avail_shot then true else okB pm.atcBtnShot) else true

def availOk (pm : PageModel) : Bool :=
  match pm.availRegionCount with
  | .error _ => false
  | .ok n =>
    if n > 0 then okB pm.availRegionShot && atcOkB pm true
    else atcOkB pm false

/-- The add-to-cart button state as it stands when the availability text
is resolved. -/
def btnStateOf (pm : PageModel) : Option Bool :=
  match pm.atcBtnCount with
  | .ok n => if n > 0 then btnEnabledOf pm else none
  | .error _ => none

/-- The visible availability a clean run records. -/
def availValue (pm : PageModel) : Option String :=
  availTextValue pm (btnStateOf pm)

def variantOk (pm : PageModel) : Bool :=
  countShotOk pm.variantCount pm.variantShot true

def returnsPageOk (pm : PageModel) : Bool :=
  okB pm.returnsNewPageRes && okB pm.returnsGotoRes && okB pm.returnsShotRes &&
  okB pm.returnsCloseRes

def footerHintOk (pm : PageModel) : Bool :=
  match pm.footerCountRes with
  | .error _ => false
  | .ok n =>
    if n > 0 then
      match pm.footerTextRes with
      | .error _ => false
      | .ok t =>
        if hasKeyword (pyLower (strTake t 500)) RETURNS_HINTS then okB pm.footerReturnsShotRes
        else true
    else true

def returnsOk (ru : Option String) (pm : PageModel) : Bool :=
  let hasRu : Bool := match ru with | some r => r != "" | none => false
  if hasRu then returnsPageOk pm else footerHintOk pm

def footerOk (pm : PageModel) : Bool :=
  countShotOk pm.footer2CountRes pm.footer2ShotRes true

def priceOk (pm : PageModel) : Bool :=
  match pm.priceNodeTextRes with
  | .ok t => if t == "" then okB pm.bodyText2Res else true
  | .error _ => okB pm.bodyText2Res

/-- The visible price a clean run records. -/
def priceValue (pm : PageModel) : Option String :=
  match pm.priceNodeTextRes with
  | .ok t =>
    if t == "" then
      match pm.bodyText2Res with
      | .ok b => searchPriceStr b
      | .error _ => none
    else searchPriceStr t
  | .error _ =>
    match pm.bodyText2Res with
    | .ok b => searchPriceStr b
    | .error _ => none

/-- Every step of the protected block that could propagate an exception
to the job-scope handler succeeds.  Field-scope reads (title, h1,
canonical, attributes, body availability text, price node text, meta
tags, JSON-LD content) are unrestricted: their raises are caught at
field scope. -/
def pipelineOk (ru : Option String) (pm : PageModel) : Bool :=
  okB pm.gotoRes && netIdleOk pm && okB pm.waitTimeoutRes && okB pm.fullShotRes &&
  priceShotOk pm && availOk pm && variantOk pm && returnsOk ru pm &&
  footerOk pm && okB pm.content1Res && priceOk pm

/-- The fields a clean run of the protected block produces. -/
def cleanFields (pm : PageModel) : Fields :=
  { title := titleValue pm none,
    canonical := canonicalValue pm,
    visible_price := priceValue pm,
    visible_availability := availValue pm,
    schema_product := (schemaResolve pm).1,
    schema_offer := (schemaResolve pm).2.1,
    errors := (schemaResolve pm).2.2 }

/-- An ld+json block that is a dict whose normalised type tag is
computable and contains `"Product"`. -/
def isProductBlock (b : Json) : Bool :=
  b.isObj &&
    (match typeTagString (b.objGet "@type") with
     | .ok t => strContains t "Product"
     | .error _ => false)

/-- An ld+json block the loop passes over without raising: a dict whose
normalised type tag is computable and does not contain `"Product"`. -/
def nonProductBlock (b : Json) : Bool :=
  b.isObj &&
    (match typeTagString (b.objGet "@type") with
     | .ok t => !strContains t "Product"
     | .error _ => false)

/-- The record without its timestamp (`ts` is the one field two runs may
disagree on). -/
def Evidence.core (ev : Evidence) :
    String × Option String × Option String × Option String × Option String ×
      Json × Json × List String :=
  (ev.url, ev.title, ev.canonical, ev.visible_price, ev.visible_availability,
   ev.schema_product, ev.schema_offer, ev.errors)

/-! ## Concrete scenario models used by the per-claim witnesses and
counterexamples -/

/-- C1 counterexample page: the full-page screenshot raises, while the
page itself has a perfectly extractable title. -/
def pmC1x : PageModel :=
  { fullShotRes := .error ⟨"Error", "screenshot failed", false⟩,
    titleRes := .ok "My Widget" }

/-- C1 witness page: navigation times out (a `NavigationError`). -/
def pmC1w : PageModel :=
  { gotoRes := .error ⟨"TimeoutError", "Timeout 25000ms exceeded", true⟩ }

/-- C2: a healthy item. -/
def itemC2a : BatchItem :=
  { url := "https://shop.test/p/alpha", returns_url := none, ua := "ua0", ts := 11,
    pm := { bodyText1Res := .ok "In stock and ready", bodyText2Res := .ok "" } }

/-- C2 counterexample: the second item's browser launch raises. -/
def itemC2b : BatchItem :=
  { url := "https://shop.test/p/beta", returns_url := none, ua := "ua0", ts := 12,
    pm := { launchRes := .error ⟨"Error", "browser launch failed", false⟩ } }

/-- C2 witness: the second item's navigation times out (caught inside
the job). -/
def itemC2c : BatchItem :=
  { url := "https://shop.test/p/gamma", returns_url := none, ua := "ua1", ts := 13,
    pm := { gotoRes := .error ⟨"TimeoutError", "Timeout 25000ms exceeded", true⟩ } }

/-- C3 witness page: the body says Sold Out while the add-to-cart
control is present and enabled. -/
def pmC3w : PageModel :=
  { bodyText1Res := .ok "Collector edition. Sold Out - notify me",
    atcBtnCount := .ok 1,
    disabledAttrRes := .ok none,
    ariaDisabledRes := .ok none }

/-- C4 counterexample page: no availability keyword anywhere, `disabled`
absent, `aria-disabled` equal to `"1"` (not `"true"`). -/
def pmC4x : PageModel :=
  { bodyText1Res := .ok "Limited edition collectible figurine",
    atcBtnCount := .ok 1,
    disabledAttrRes := .ok none,
    ariaDisabledRes := .ok (some "1") }

/-- C4 witness page: no availability keyword, enabled control. -/
def pmC4w : PageModel :=
  { bodyText1Res := .ok "Limited edition collectible figurine",
    atcBtnCount := .ok 1,
    disabledAttrRes := .ok none,
    ariaDisabledRes := .ok (some "false") }

/-- C5 counterexample page: the title read raises; everything else is
clean. -/
def pmC5x : PageModel :=
  { titleRes := .error ⟨"Error", "title read failed", false⟩,
    h1Res := .error ⟨"TimeoutError", "waiting for locator h1", true⟩ }

/-- C5 witness page: every field-scope read raises, the JSON-LD content
read raises, the body price fallback succeeds. -/
def pmC5w : PageModel :=
  { titleRes := .error ⟨"Error", "boom-title", false⟩,
    h1Res := .error ⟨"Error", "boom-h1", false⟩,
    canonHrefRes := .error ⟨"Error", "boom-canon", false⟩,
    bodyText1Res := .error ⟨"Error", "boom-body", false⟩,
    priceNodeTextRes := .error ⟨"Error", "boom-price-node", false⟩,
    bodyText2Res := .ok "grab it for $9.99 today",
    content2Res := .error ⟨"Error", "boom-content", false⟩ }

/-- C6 counterexample page: the price-labelled element has text but no
currency match, while the body text does contain one. -/
def pmC6x : PageModel :=
  { priceNodeTextRes := .ok "Call for price",
    bodyText2Res := .ok "only $5.00 today" }

/-- C6 witness page: the price-labelled element contains two currency
amounts. -/
def pmC6w : PageModel :=
  { priceNodeTextRes := .ok "Now $1,299.00 (was $1,499.00)" }

/-- C7 witness document: a lowercase `"product"` block (skipped:
case-sensitive), then a Product block with a two-element `offers`
array. -/
def c7Pre : Json := Json.obj [("@type", Json.str "product")]

def c7Offer0 : Json :=
  Json.obj [("@type", Json.str "Offer"), ("price", Json.str "19.99")]

def c7Offer1 : Json :=
  Json.obj [("@type", Json.str "Offer"), ("price", Json.str "24.99")]

def c7Block : Json :=
  Json.obj [("@type", Json.arr [Json.str "Thing", Json.str "Product"]),
            ("name", Json.str "Widget"),
            ("offers", Json.arr [c7Offer0, c7Offer1])]

def pmC7w : PageModel :=
  { content2Res := .ok [none, some c7Pre, some c7Block] }

/-- C8 counterexample document: a Product block whose `offers` array's
first element is the empty dict (falsy), plus price/currency meta
tags. -/
def c8Block : Json :=
  Json.obj [("@type", Json.str "Product"),
            ("offers", Json.arr [Json.obj []])]

def pmC8x : PageModel :=
  { content2Res := .ok [some c8Block],
    metaPriceRes := .ok (some "9.99"),
    metaCurrRes := .ok (some "USD") }

/-- C8 witness document: a Product block with no offer at all, and meta
tags present. -/
def c8wBlock : Json :=
  Json.obj [("@type", Json.str "Product"), ("name", Json.str "Widget")]

def pmC8w : PageModel :=
  { content2Res := .ok [some c8wBlock],
    metaPriceRes := .ok (some "12.50"),
    metaCurrRes := .ok (some "") }

/-- C8 witness document with a truthy structured offer. -/
def pmC8w2 : PageModel :=
  { content2Res := .ok [some c7Block],
    metaPriceRes := .ok (some "99.99"),
    metaCurrRes := .ok (some "EUR") }

/-- A stand-in SHA-1 hex digest for the slug witness: any
length-40 output works for the injectivity hypothesis. -/
def fakeSha1 (u : String) : String :=
  strTake (u ++ "0123456789012345678901234567890123456789") 40

/-! ## Section lemmas: a section whose success predicate holds neither
raises nor touches fields other than its own -/

theorem callUnit_ok {x : Except PyErr Unit} (h : okB x = true) (fs : Fields) :
    callUnit x fs = (fs, none) := by
  cases x with
  | ok v => rfl
  | error e => simp [okB] at h

theorem seqS_ok {a b : SecT} {fs fs1 : Fields} (h : a fs = (fs1, none)) :
    seqS a b fs = b fs1 := by
  simp [seqS, h]

theorem netIdleSec_ok {pm : PageModel} (h : netIdleOk pm = true) (fs : Fields) :
    netIdleSec pm fs = (fs, none) := by
  unfold netIdleOk at h
  unfold netIdleSec
  cases he : pm.networkIdleRes with
  | ok v => rfl
  | error e =>
    rw [he] at h
    simp at h
    simp [h]

theorem countShot_ok {cnt : Except PyErr Nat} {shot : Except PyErr Unit}
    {els : SecT} {elsOk : Bool}
    (hels : elsOk = true → ∀ fs, els fs = (fs, none))
    (h : countShotOk cnt shot elsOk = true) (fs : Fields) :
    countShot cnt shot els fs = (fs, none) := by
  unfold countShotOk at h
  unfold countShot
  cases hc : cnt with
  | error e => rw [hc] at h; simp at h
  | ok n =>
    rw [hc] at h
    by_cases hn : n > 0
    · simp [hn] at h ⊢
      cases hs : shot with
      | error e => rw [hs] at h; simp [okB] at h
      | ok v => rfl
    · simp [hn] at h ⊢
      exact hels h fs

theorem skipS_ok (fs : Fields) : skipS fs = (fs, none) := rfl

theorem priceShotSec_ok {pm : PageModel} (h : priceShotOk pm = true) (fs : Fields) :
    priceShotSec pm fs = (fs, none) := by
  unfold priceShotOk at h
  unfold priceShotSec
  exact countShot_ok (fun h2 => countShot_ok (fun h3 => countShot_ok (fun _ => skipS_ok) h3) h2) h fs

theorem variantSec_ok {pm : PageModel} (h : variantOk pm = true) (fs : Fields) :
    variantSec pm fs = (fs, none) := by
  unfold variantOk at h
  unfold variantSec
  exact countShot_ok (fun _ => skipS_ok) h fs

theorem footerSec_ok {pm : PageModel} (h : footerOk pm = true) (fs : Fields) :
    footerSec pm fs = (fs, none) := by
  unfold footerOk at h
  unfold footerSec
  exact countShot_ok (fun _ => skipS_ok) h fs

theorem availTextSec_eq (pm : PageModel) (btn : Option Bool) (fs : Fields) :
    availTextSec pm btn fs = ({fs with visible_availability := availTextValue pm btn}, none) := rfl

theorem atcBtnSec_ok {pm : PageModel} {got : Bool} (h : atcOkB pm got = true) (fs : Fields) :
    atcBtnSec pm got fs = ({fs with visible_availability := availTextValue pm (btnStateOf pm)}, none) := by
  unfold atcOkB at h
  unfold atcBtnSec btnStateOf
  cases hc : pm.atcBtnCount with
  | error e => rw [hc] at h; simp at h
  | ok n =>
    rw [hc] at h
    by_cases hn : n > 0
    · simp [hn] at h ⊢
      cases got with
      | true => simp [availTextSec_eq]
      | false =>
        simp at h
        cases hs : pm.atcBtnShot with
        | error e => rw [hs] at h; simp [okB] at h
        | ok v => simp [availTextSec_eq]
    · simp [hn, availTextSec_eq]

theorem availabilitySec_ok {pm : PageModel} (h : availOk pm = true) (fs : Fields) :
    availabilitySec pm fs = ({fs with visible_availability := availValue pm}, none) := by
  unfold availOk at h
  unfold availabilitySec availValue
  cases hc : pm.availRegionCount with
  | error e => rw [hc] at h; simp at h
  | ok n =>
    rw [hc] at h
    by_cases hn : n > 0
    · simp [hn] at h ⊢
      obtain ⟨h1, h2⟩ := h
      cases hs : pm.availRegionShot with
      | error e => rw [hs] at h1; simp [okB] at h1
      | ok v => exact atcBtnSec_ok h2 fs
    · simp [hn] at h ⊢
      exact atcBtnSec_ok h fs

theorem returnsPageSec_ok {pm : PageModel} (h : returnsPageOk pm = true) (fs : Fields) :
    returnsPageSec pm fs = (fs, none) := by
  unfold returnsPageOk at h
  simp only [Bool.and_eq_true] at h
  obtain ⟨⟨⟨h1, h2⟩, h3⟩, h4⟩ := h
  unfold returnsPageSec
  cases hx1 : pm.returnsNewPageRes with
  | error e => rw [hx1] at h1; simp [okB] at h1
  | ok v =>
    cases hx2 : pm.returnsGotoRes with
    | error e => rw [hx2] at h2; simp [okB] at h2
    | ok v2 =>
      cases hx3 : pm.returnsShotRes with
      | error e => rw [hx3] at h3; simp [okB] at h3
      | ok v3 =>
        cases hx4 : pm.returnsCloseRes with
        | error e => rw [hx4] at h4; simp [okB] at h4
        | ok v4 => rfl

theorem footerHintSec_ok {pm : PageModel} (h : footerHintOk pm = true) (fs : Fields) :
    footerHintSec pm fs = (fs, none) := by
  unfold footerHintOk at h
  unfold footerHintSec
  cases hc : pm.footerCountRes with
  | error e => rw [hc] at h; simp at h
  | ok n =>
    rw [hc] at h
    by_cases hn : n > 0
    · simp [hn] at h ⊢
      cases ht : pm.footerTextRes with
      | error e => rw [ht] at h; simp at h
      | ok t =>
        rw [ht] at h
        by_cases hk : hasKeyword (pyLower (strTake t 500)) RETURNS_HINTS = true
        · simp [hk] at h ⊢
          cases hs : pm.footerReturnsShotRes with
          | error e => rw [hs] at h; simp [okB] at h
          | ok v => rfl
        · simp only [Bool.not_eq_true] at hk
          simp [hk]
    · simp [hn]

theorem returnsSec_ok {ru : Option String} {pm : PageModel}
    (h : returnsOk ru pm = true) (fs : Fields) :
    returnsSec ru pm fs = (fs, none) := by
  unfold returnsOk at h
  unfold returnsSec
  cases ru with
  | none => exact footerHintSec_ok h fs
  | some r =>
    by_cases hr : (r != "") = true
    · simp only [hr, if_true] at h ⊢
      exact returnsPageSec_ok h fs
    · simp only [Bool.not_eq_true] at hr
      simp only [hr, Bool.false_eq_true, if_false] at h ⊢
      exact footerHintSec_ok h fs

theorem titleSec_eq (pm : PageModel) (fs : Fields) :
    titleSec pm fs = ({fs with title := titleValue pm fs.title}, none) := rfl

theorem canonicalSec_eq (pm : PageModel) (fs : Fields) :
    canonicalSec pm fs = ({fs with canonical := canonicalValue pm}, none) := rfl

theorem priceSec_ok {pm : PageModel} (h : priceOk pm = true) (fs : Fields) :
    priceSec pm fs = ({fs with visible_price := priceValue pm}, none) := by
  unfold priceOk at h
  unfold priceSec priceValue bodyPriceSec
  cases hp : pm.priceNodeTextRes with
  | error e =>
    rw [hp] at h
    cases hb : pm.bodyText2Res with
    | error e2 => rw [hb] at h; simp [okB] at h
    | ok b => simp
  | ok t =>
    rw [hp] at h
    by_cases he : t == ""
    · simp [he] at h ⊢
      cases hb : pm.bodyText2Res with
      | error e2 => rw [hb] at h; simp [okB] at h
      | ok b => simp
    · simp only [Bool.not_eq_true] at he
      simp [he]

theorem schemaSec_eq (pm : PageModel) (fs : Fields) :
    schemaSec pm fs =
      ({fs with schema_product := (schemaResolve pm).1,
                schema_offer := (schemaResolve pm).2.1,
                errors := fs.errors ++ (schemaResolve pm).2.2}, none) := rfl

/-- A clean run of the protected block raises nothing and produces
exactly the clean-field record. -/
theorem captureTry_clean {ru : Option String} {pm : PageModel}
    (h : pipelineOk ru pm = true) :
    captureTry ru pm initFields = (cleanFields pm, none) := by
  unfold pipelineOk at h
  simp only [Bool.and_eq_true] at h
  obtain ⟨⟨⟨⟨⟨⟨⟨⟨⟨⟨h1, h2⟩, h3⟩, h4⟩, h5⟩, h6⟩, h7⟩, h8⟩, h9⟩, h10⟩, h11⟩ := h
  unfold captureTry
  rw [seqS_ok (callUnit_ok h1 _)]
  rw [seqS_ok (netIdleSec_ok h2 _)]
  rw [seqS_ok (callUnit_ok h3 _)]
  rw [seqS_ok (callUnit_ok h4 _)]
  rw [seqS_ok (priceShotSec_ok h5 _)]
  rw [seqS_ok (availabilitySec_ok h6 _)]
  rw [seqS_ok (variantSec_ok h7 _)]
  rw [seqS_ok (returnsSec_ok h8 _)]
  rw [seqS_ok (footerSec_ok h9 _)]
  rw [seqS_ok (callUnit_ok h10 _)]
  rw [seqS_ok (titleSec_eq pm _)]
  rw [seqS_ok (canonicalSec_eq pm _)]
  rw [seqS_ok (priceSec_ok h11 _)]
  rw [schemaSec_eq]
  rfl

/-- When browser setup and teardown succeed, the job returns (and
writes) exactly its record — no exception escapes the protected
block. -/
theorem capture_single_ok {pm : PageModel} (url : String) (ru : Option String)
    (ua : String) (ts : Int) (hs : setupOk pm = true) (ht : teardownOk pm = true) :
    capture_single url ru ua ts pm = .ok (jobRecord url ru ts pm) := by
  unfold setupOk at hs
  unfold teardownOk at ht
  simp only [Bool.and_eq_true] at hs ht
  obtain ⟨⟨h1, h2⟩, h3⟩ := hs
  obtain ⟨h4, h5⟩ := ht
  unfold capture_single
  cases hx1 : pm.launchRes with
  | error e => rw [hx1] at h1; simp [okB] at h1
  | ok v =>
    cases hx2 : pm.newContextRes with
    | error e => rw [hx2] at h2; simp [okB] at h2
    | ok v2 =>
      cases hx3 : pm.newPageRes with
      | error e => rw [hx3] at h3; simp [okB] at h3
      | ok v3 =>
        cases hx4 : pm.contextCloseRes with
        | error e => rw [hx4] at h4; simp [okB] at h4
        | ok v4 =>
          cases hx5 : pm.browserCloseRes with
          | error e => rw [hx5] at h5; simp [okB] at h5
          | ok v5 => rfl

/-- A clean run's record, field by field. -/
theorem jobRecord_clean {ru : Option String} {pm : PageModel} (url : String) (ts : Int)
    (h : pipelineOk ru pm = true) :
    jobRecord url ru ts pm =
      { url := url, ts := ts, title := titleValue pm none,
        canonical := canonicalValue pm, visible_price := priceValue pm,
        visible_availability := availValue pm,
        schema_product := (schemaResolve pm).1,
        schema_offer := (schemaResolve pm).2.1,
        errors := (schemaResolve pm).2.2 } := by
  unfold jobRecord
  rw [captureTry_clean h]
  rfl

/-- C3: on a page whose visible body text contains an out-of-stock
keyword, the recorded visible availability is OUT_OF_STOCK no matter
what the add-to-cart control's state is; with no out-of-stock keyword
but an in-stock keyword it is IN_STOCK — text outweighs the inferred
control state. -/
theorem c3_text_priority (url : String) (ru : Option String) (ua : String) (ts : Int)
    (pm : PageModel) (s : String)
    (hs : setupOk pm = true) (ht : teardownOk pm = true)
    (hp : pipelineOk ru pm = true)
    (hb : pm.bodyText1Res = .ok s) :
    ∃ ev, capture_single url ru ua ts pm = .ok ev ∧
      (hasKeyword (pyLower s) OOS_TEXT_KEYWORDS = true →
        ev.visible_availability = some "OUT_OF_STOCK") ∧
      (hasKeyword (pyLower s) OOS_TEXT_KEYWORDS = false →
       hasKeyword (pyLower s) IN_STOCK_TEXT_KEYWORDS = true →
        ev.visible_availability = some "IN_STOCK") := by
  refine ⟨jobRecord url ru ts pm, capture_single_ok url ru ua ts hs ht, ?_, ?_⟩
  · intro hoos
    rw [jobRecord_clean url ts hp]
    show availValue pm = some "OUT_OF_STOCK"
    unfold availValue availTextValue
    rw [hb]
    unfold resolveAvailabilityText
    simp [hoos]
  · intro hoos his
    rw [jobRecord_clean url ts hp]
    show availValue pm = some "IN_STOCK"
    unfold availValue availTextValue
    rw [hb]
    unfold resolveAvailabilityText
    simp [hoos, his]

/-- Witness for C3: a concrete sold-out page whose add-to-cart control
is present and enabled; the recorded availability is OUT_OF_STOCK. -/
theorem c3_witness :
    (setupOk pmC3w = true ∧ teardownOk pmC3w = true ∧ pipelineOk none pmC3w = true ∧
     btnEnabledOf pmC3w = some true ∧
     hasKeyword (pyLower "Collector edition. Sold Out - notify me") OOS_TEXT_KEYWORDS = true) ∧
    (∃ ev, capture_single "https://shop.test/p/x" none "ua" 5 pmC3w = .ok ev ∧
      (hasKeyword (pyLower "Collector edition. Sold Out - notify me") OOS_TEXT_KEYWORDS = true →
        ev.visible_availability = some "OUT_OF_STOCK") ∧
      (hasKeyword (pyLower "Collector edition. Sold Out - notify me") OOS_TEXT_KEYWORDS = false →
       hasKeyword (pyLower "Collector edition. Sold Out - notify me") IN_STOCK_TEXT_KEYWORDS = true →
        ev.visible_availability = some "IN_STOCK")) :=
  ⟨⟨by decide, by decide, by decide, by decide, by decide⟩,
   c3_text_priority "https://shop.test/p/x" none "ua" 5 pmC3w
     "Collector edition. Sold Out - notify me" (by decide) (by decide) (by decide) rfl⟩

/-- The availability field can only ever hold IN_STOCK, OUT_OF_STOCK or
null. -/
theorem resolveAvailabilityText_shape (t : String) (btn : Option Bool) :
    resolveAvailabilityText t btn = none ∨
    resolveAvailabilityText t btn = some "IN_STOCK" ∨
    resolveAvailabilityText t btn = some "OUT_OF_STOCK" := by
  unfold resolveAvailabilityText
  by_cases h1 : hasKeyword (pyLower t) OOS_TEXT_KEYWORDS = true
  · simp [h1]
  · simp only [Bool.not_eq_true] at h1
    by_cases h2 : hasKeyword (pyLower t) IN_STOCK_TEXT_KEYWORDS = true
    · simp [h1, h2]
    · simp only [Bool.not_eq_true] at h2
      cases btn with
      | none => simp [h1, h2]
      | some b => cases b <;> simp [h1, h2]

theorem availValue_shape (pm : PageModel) :
    availValue pm = none ∨ availValue pm = some "IN_STOCK" ∨
    availValue pm = some "OUT_OF_STOCK" := by
  unfold availValue availTextValue
  cases pm.bodyText1Res with
  | error e => simp
  | ok t => exact resolveAvailabilityText_shape t (btnStateOf pm)

/-- C4 counterexample: `disabled` absent and `aria-disabled = "1"`
(which is not `"true"`), no availability keyword in the body text — the
claim requires IN_STOCK, but the code records OUT_OF_STOCK because it
also treats `"1"` as disabling. -/
theorem c4_aria_numeric_cex :
    (capture_single "https://shop.test/p/fig" none "ua" 0 pmC4x).map
        (fun ev => ev.visible_availability) = .ok (some "OUT_OF_STOCK") ∧
    pmC4x.disabledAttrRes = .ok none ∧
    pmC4x.ariaDisabledRes = .ok (some "1") ∧
    (some "1" ≠ (some "true" : Option String)) ∧
    hasKeyword (pyLower "Limited edition collectible figurine") OOS_TEXT_KEYWORDS = false ∧
    hasKeyword (pyLower "Limited edition collectible figurine") IN_STOCK_TEXT_KEYWORDS = false ∧
    pmC4x.bodyText1Res = .ok "Limited edition collectible figurine" :=
  ⟨rfl, rfl, rfl, by decide, by decide, by decide, rfl⟩

/-- C4 amended: with no availability keyword in the body text, the
control state decides the field: enabled iff `disabled` is absent and
`aria-disabled` is neither `"true"` nor `"1"`; an absent control or a
failed attribute read leaves the field null (the UNKNOWN encoding); and
the field only ever holds IN_STOCK, OUT_OF_STOCK or null. -/
theorem c4_control_state_amended (url : String) (ru : Option String) (ua : String)
    (ts : Int) (pm : PageModel) (s : String)
    (hs : setupOk pm = true) (ht : teardownOk pm = true)
    (hp : pipelineOk ru pm = true)
    (hb : pm.bodyText1Res = .ok s)
    (hoos : hasKeyword (pyLower s) OOS_TEXT_KEYWORDS = false)
    (his : hasKeyword (pyLower s) IN_STOCK_TEXT_KEYWORDS = false) :
    ∃ ev, capture_single url ru ua ts pm = .ok ev ∧
      (∀ n d a, pm.atcBtnCount = .ok n → 0 < n →
        pm.disabledAttrRes = .ok d → pm.ariaDisabledRes = .ok a →
        ev.visible_availability =
          some (if d.isNone && a != some "true" && a != some "1"
                then "IN_STOCK" else "OUT_OF_STOCK")) ∧
      (pm.atcBtnCount = .ok 0 → ev.visible_availability = none) ∧
      (∀ e, pm.disabledAttrRes = .error e → ev.visible_availability = none) ∧
      (ev.visible_availability = none ∨ ev.visible_availability = some "IN_STOCK" ∨
       ev.visible_availability = some "OUT_OF_STOCK") := by
  refine ⟨jobRecord url ru ts pm, capture_single_ok url ru ua ts hs ht, ?_, ?_, ?_, ?_⟩
  · intro n d a hcnt hn hd ha
    rw [jobRecord_clean url ts hp]
    show availValue pm = _
    unfold availValue availTextValue btnStateOf btnEnabledOf
    rw [hb, hcnt, hd, ha]
    unfold resolveAvailabilityText
    simp [hoos, his, hn]
  · intro hcnt
    rw [jobRecord_clean url ts hp]
    show availValue pm = none
    unfold availValue availTextValue btnStateOf
    rw [hb, hcnt]
    unfold resolveAvailabilityText
    simp [hoos, his]
  · intro e hd
    rw [jobRecord_clean url ts hp]
    show availValue pm = none
    unfold availValue availTextValue btnStateOf btnEnabledOf
    rw [hb, hd]
    unfold resolveAvailabilityText
    cases hcnt : pm.atcBtnCount with
    | error e2 => simp [hoos, his]
    | ok n =>
      by_cases hn : n > 0
      · simp [hoos, his, hn]
      · simp [hoos, his, hn]
  · rw [jobRecord_clean url ts hp]
    show availValue pm = none ∨ _
    exact availValue_shape pm

/-- Witness for C4 at a concrete keyword-free page with an enabled
control (`aria-disabled="false"`). -/
theorem c4_amended_witness :
    (setupOk pmC4w = true ∧ teardownOk pmC4w = true ∧ pipelineOk none pmC4w = true ∧
     hasKeyword (pyLower "Limited edition collectible figurine") OOS_TEXT_KEYWORDS = false ∧
     hasKeyword (pyLower "Limited edition collectible figurine") IN_STOCK_TEXT_KEYWORDS = false) ∧
    (∃ ev, capture_single "https://shop.test/p/fig2" none "ua" 0 pmC4w = .ok ev ∧
      (∀ n d a, pmC4w.atcBtnCount = .ok n → 0 < n →
        pmC4w.disabledAttrRes = .ok d → pmC4w.ariaDisabledRes = .ok a →
        ev.visible_availability =
          some (if d.isNone && a != some "true" && a != some "1"
                then "IN_STOCK" else "OUT_OF_STOCK")) ∧
      (pmC4w.atcBtnCount = .ok 0 → ev.visible_availability = none) ∧
      (∀ e, pmC4w.disabledAttrRes = .error e → ev.visible_availability = none) ∧
      (ev.visible_availability = none ∨ ev.visible_availability = some "IN_STOCK" ∨
       ev.visible_availability = some "OUT_OF_STOCK")) :=
  ⟨⟨by decide, by decide, by decide, by decide, by decide⟩,
   c4_control_state_amended "https://shop.test/p/fig2" none "ua" 0 pmC4w
     "Limited edition collectible figurine" (by decide) (by decide) (by decide) rfl
     (by decide) (by decide)⟩

/-- C5 counterexample: the title derivation raises; the exception is
caught and the field is left null, but no descriptive string is appended
— the errors list stays empty. -/
theorem c5_silent_swallow_cex :
    (capture_single "https://shop.test/p/t" none "ua" 0 pmC5x).map
      (fun ev => (ev.title, ev.errors)) = .ok (none, []) ∧
    pmC5x.titleRes = .error ⟨"Error", "title read failed", false⟩ :=
  ⟨rfl, rfl⟩

/-- C5 amended: exceptions raised while deriving the title, canonical
URL, availability or the price-labelled element's text are caught at
field scope and the field is left null, but silently — nothing is
appended to `errors`; only the structured-data section records a
`schema_error` entry, so after all five field reads plus the JSON-LD
content read fail, the record holds exactly one error string. -/
theorem c5_field_errors_amended (url : String) (ru : Option String) (ua : String)
    (ts : Int) (pm : PageModel) (b : String) (e1 e2 e3 e4 e5 e6 : PyErr)
    (hs : setupOk pm = true) (ht : teardownOk pm = true) (hp : pipelineOk ru pm = true)
    (hti : pm.titleRes = .error e1) (hh1 : pm.h1Res = .error e2)
    (hca : pm.canonHrefRes = .error e3) (hbo : pm.bodyText1Res = .error e4)
    (hpn : pm.priceNodeTextRes = .error e5) (hb2 : pm.bodyText2Res = .ok b)
    (hc2 : pm.content2Res = .error e6) :
    ∃ ev, capture_single url ru ua ts pm = .ok ev ∧
      ev.title = none ∧ ev.canonical = none ∧ ev.visible_availability = none ∧
      ev.visible_price = searchPriceStr b ∧
      ev.errors = [schemaErrStr e6] := by
  refine ⟨jobRecord url ru ts pm, capture_single_ok url ru ua ts hs ht, ?_, ?_, ?_, ?_, ?_⟩
  · rw [jobRecord_clean url ts hp]
    show titleValue pm none = none
    unfold titleValue
    rw [hti, hh1]
    rfl
  · rw [jobRecord_clean url ts hp]
    show canonicalValue pm = none
    unfold canonicalValue
    rw [hca]
  · rw [jobRecord_clean url ts hp]
    show availValue pm = none
    unfold availValue availTextValue
    rw [hbo]
  · rw [jobRecord_clean url ts hp]
    show priceValue pm = searchPriceStr b
    unfold priceValue
    rw [hpn, hb2]
  · rw [jobRecord_clean url ts hp]
    show (schemaResolve pm).2.2 = [schemaErrStr e6]
    unfold schemaResolve
    rw [hc2]

/-- Witness for C5 at a concrete page where all five field reads and the
JSON-LD content read raise while the body still shows a price. -/
theorem c5_amended_witness :
    (setupOk pmC5w = true ∧ teardownOk pmC5w = true ∧ pipelineOk none pmC5w = true) ∧
    (∃ ev, capture_single "https://shop.test/p/u" none "ua" 3 pmC5w = .ok ev ∧
      ev.title = none ∧ ev.canonical = none ∧ ev.visible_availability = none ∧
      ev.visible_price = searchPriceStr "grab it for $9.99 today" ∧
      ev.errors = [schemaErrStr ⟨"Error", "boom-content", false⟩]) :=
  ⟨⟨by decide, by decide, by decide⟩,
   c5_field_errors_amended "https://shop.test/p/u" none "ua" 3 pmC5w
     "grab it for $9.99 today"
     ⟨"Error", "boom-title", false⟩ ⟨"Error", "boom-h1", false⟩
     ⟨"Error", "boom-canon", false⟩ ⟨"Error", "boom-body", false⟩
     ⟨"Error", "boom-price-node", false⟩ ⟨"Error", "boom-content", false⟩
     (by decide) (by decide) (by decide) rfl rfl rfl rfl rfl rfl rfl⟩

/-- C6 counterexample: the price-labelled element's text exists but has
no currency match, the body text does contain one — against the claim,
the result is null: the body fallback is not consulted. -/
theorem c6_no_fallback_cex :
    (capture_single "https://shop.test/p/z" none "ua" 0 pmC6x).map
      (fun ev => ev.visible_price) = .ok none ∧
    pmC6x.priceNodeTextRes = .ok "Call for price" ∧
    searchPriceStr "Call for price" = none ∧
    pmC6x.bodyText2Res = .ok "only $5.00 today" ∧
    searchPriceStr "only $5.00 today" = some "$5.00" :=
  ⟨rfl, rfl, rfl, rfl, rfl⟩

/-- C6 amended: when the price-labelled element yields non-empty text,
the visible price is the first currency match of that text — possibly
null, with no body fallback; the full-page text is consulted only when
the element's text is empty or its read raised. -/
theorem c6_price_order_amended (url : String) (ru : Option String) (ua : String)
    (ts : Int) (pm : PageModel)
    (hs : setupOk pm = true) (ht : teardownOk pm = true)
    (hp : pipelineOk ru pm = true) :
    ∃ ev, capture_single url ru ua ts pm = .ok ev ∧
      (∀ t, pm.priceNodeTextRes = .ok t → t ≠ "" →
        ev.visible_price = searchPriceStr t) ∧
      (∀ b2, pm.priceNodeTextRes = .ok "" → pm.bodyText2Res = .ok b2 →
        ev.visible_price = searchPriceStr b2) ∧
      (∀ e b2, pm.priceNodeTextRes = .error e → pm.bodyText2Res = .ok b2 →
        ev.visible_price = searchPriceStr b2) := by
  refine ⟨jobRecord url ru ts pm, capture_single_ok url ru ua ts hs ht, ?_, ?_, ?_⟩
  · intro t hpn htne
    rw [jobRecord_clean url ts hp]
    show priceValue pm = searchPriceStr t
    unfold priceValue
    rw [hpn]
    simp [htne]
  · intro b2 hpn hb2
    rw [jobRecord_clean url ts hp]
    show priceValue pm = searchPriceStr b2
    unfold priceValue
    rw [hpn, hb2]
    rfl
  · intro e b2 hpn hb2
    rw [jobRecord_clean url ts hp]
    show priceValue pm = searchPriceStr b2
    unfold priceValue
    rw [hpn, hb2]

/-- Witness for C6: the price-labelled element reads
`"Now $1,299.00 (was $1,499.00)"` and the first match `$1,299.00` is
recorded. -/
theorem c6_amended_witness :
    (setupOk pmC6w = true ∧ teardownOk pmC6w = true ∧ pipelineOk none pmC6w = true ∧
     searchPriceStr "Now $1,299.00 (was $1,499.00)" = some "$1,299.00") ∧
    (∃ ev, capture_single "https://shop.test/p/deal" none "ua" 2 pmC6w = .ok ev ∧
      (∀ t, pmC6w.priceNodeTextRes = .ok t → t ≠ "" →
        ev.visible_price = searchPriceStr t) ∧
      (∀ b2, pmC6w.priceNodeTextRes = .ok "" → pmC6w.bodyText2Res = .ok b2 →
        ev.visible_price = searchPriceStr b2) ∧
      (∀ e b2, pmC6w.priceNodeTextRes = .error e → pmC6w.bodyText2Res = .ok b2 →
        ev.visible_price = searchPriceStr b2)) :=
  ⟨⟨by decide, by decide, by decide, by decide⟩,
   c6_price_order_amended "https://shop.test/p/deal" none "ua" 2 pmC6w
     (by decide) (by decide) (by decide)⟩

/-- C1 counterexample: the full-page screenshot raises; the failure is
caught and recorded and the record is written — but the remaining
fields are not extracted best-effort: the title stays null although the
title read would have succeeded. -/
theorem c1_extraction_skipped_cex :
    (capture_single "https://shop.test/p/w" none "ua" 0 pmC1x).map
      (fun ev => (ev.title, ev.errors))
      = .ok (none, ["page_error:Error:screenshot failed"]) ∧
    pmC1x.titleRes = .ok "My Widget" :=
  ⟨rfl, rfl⟩

/-- C1 amended: whenever browser setup and teardown succeed, the job
always returns (i.e. writes) exactly one record; an exception escaping
the protected block is appended as a single `page_error` entry, and a
clean protected block appends nothing — but extraction after the
failure point is skipped, so the record keeps only the fields derived
before the failure. -/
theorem c1_record_always_written_amended (url : String) (ru : Option String)
    (ua : String) (ts : Int) (pm : PageModel)
    (hs : setupOk pm = true) (ht : teardownOk pm = true) :
    ∃ ev, capture_single url ru ua ts pm = .ok ev ∧
      (∀ e, (captureTry ru pm initFields).2 = some e →
        ev.errors = (captureTry ru pm initFields).1.errors ++ [pageErrStr e]) ∧
      ((captureTry ru pm initFields).2 = none →
        ev.errors = (captureTry ru pm initFields).1.errors) ∧
      ev.title = (captureTry ru pm initFields).1.title := by
  refine ⟨jobRecord url ru ts pm, capture_single_ok url ru ua ts hs ht, ?_, ?_, ?_⟩
  · intro e he
    simp only [jobRecord]
    rw [he]
  · intro he
    simp only [jobRecord]
    rw [he]
  · simp only [jobRecord]
    cases he : (captureTry ru pm initFields).2 <;> simp [he]

/-- Witness for C1 at a page whose navigation times out: the record is
still produced, with the timeout recorded as a `page_error` entry. -/
theorem c1_amended_witness :
    (setupOk pmC1w = true ∧ teardownOk pmC1w = true ∧
     (captureTry none pmC1w initFields).2 =
       some ⟨"TimeoutError", "Timeout 25000ms exceeded", true⟩) ∧
    (∃ ev, capture_single "https://shop.test/p/w" none "ua" 7 pmC1w = .ok ev ∧
      (∀ e, (captureTry none pmC1w initFields).2 = some e →
        ev.errors = (captureTry none pmC1w initFields).1.errors ++ [pageErrStr e]) ∧
      ((captureTry none pmC1w initFields).2 = none →
        ev.errors = (captureTry none pmC1w initFields).1.errors) ∧
      ev.title = (captureTry none pmC1w initFields).1.title) :=
  ⟨⟨by decide, by decide, rfl⟩,
   c1_record_always_written_amended "https://shop.test/p/w" none "ua" 7 pmC1w
     (by decide) (by decide)⟩

/-- C2 counterexample: the second item's browser launch raises; no list
of records is produced at all — the gather aggregate raises and the
failing target gets no record, against the claim's
one-record-per-target guarantee. -/
theorem c2_launch_failure_cex :
    batch [itemC2a, itemC2b] = .error ⟨"Error", "browser launch failed", false⟩ ∧
    itemC2b.pm.launchRes = .error ⟨"Error", "browser launch failed", false⟩ :=
  ⟨rfl, rfl⟩

/-- C2 amended: when every item's browser setup and teardown succeed
(so every job-level failure is one the job catches internally), the
batch yields exactly one record per target, in submission order, each
record a function of its own target alone. -/
theorem c2_batch_order_amended (items : List BatchItem)
    (h : ∀ it ∈ items, setupOk it.pm = true ∧ teardownOk it.pm = true) :
    batch items = .ok (items.map (fun it => jobRecord it.url it.returns_url it.ts it.pm)) := by
  induction items with
  | nil => rfl
  | cons it rest ih =>
    have hit := h it (List.mem_cons_self it rest)
    have hrest : ∀ x ∈ rest, setupOk x.pm = true ∧ teardownOk x.pm = true :=
      fun x hx => h x (List.mem_cons_of_mem it hx)
    unfold batch
    rw [capture_single_ok it.url it.returns_url it.ua it.ts hit.1 hit.2]
    rw [ih hrest]
    rfl

/-- Witness for C2: a two-item batch whose second item's navigation
times out; both records appear in submission order, only the second
carries an error. -/
theorem c2_amended_witness :
    ((∀ it ∈ [itemC2a, itemC2c], setupOk it.pm = true ∧ teardownOk it.pm = true) ∧
     (jobRecord itemC2a.url itemC2a.returns_url itemC2a.ts itemC2a.pm).errors = [] ∧
     (jobRecord itemC2c.url itemC2c.returns_url itemC2c.ts itemC2c.pm).errors =
       ["page_error:TimeoutError:Timeout 25000ms exceeded"]) ∧
    batch [itemC2a, itemC2c] =
      .ok ([itemC2a, itemC2c].map (fun it => jobRecord it.url it.returns_url it.ts it.pm)) :=
  ⟨⟨by decide, rfl, rfl⟩, c2_batch_order_amended [itemC2a, itemC2c] (by decide)⟩

/-- The JSON-LD loop selects the first Product-typed block: blocks
before it that are dicts with a computable, non-Product type tag are
passed over. -/
theorem schemaPass_first_product {pre : List Json} {b : Json} (post : List Json)
    (hpre : ∀ x ∈ pre, nonProductBlock x = true) (hb : isProductBlock b = true) :
    schemaPass (pre ++ b :: post) = .ok (some (b, offerOf b)) := by
  induction pre with
  | nil =>
    simp only [List.nil_append]
    unfold isProductBlock at hb
    simp only [Bool.and_eq_true] at hb
    obtain ⟨hobj, htag⟩ := hb
    unfold schemaPass
    rw [hobj]
    simp only [if_true]
    cases hT : typeTagString (b.objGet "@type") with
    | error e => rw [hT] at htag; simp at htag
    | ok t =>
      rw [hT] at htag
      simp at htag
      simp [htag]
  | cons x pre2 ih =>
    have hx := hpre x (List.mem_cons_self x pre2)
    have hrest : ∀ y ∈ pre2, nonProductBlock y = true :=
      fun y hy => hpre y (List.mem_cons_of_mem x hy)
    unfold nonProductBlock at hx
    simp only [Bool.and_eq_true] at hx
    obtain ⟨hobj, htag⟩ := hx
    show schemaPass (x :: (pre2 ++ b :: post)) = _
    unfold schemaPass
    rw [hobj]
    simp only [if_true]
    cases hT : typeTagString (x.objGet "@type") with
    | error e => rw [hT] at htag; simp at htag
    | ok t =>
      rw [hT] at htag
      simp at htag
      simp [htag]
      exact ih hrest

/-- C7: the first block whose type tag (string or list, case-sensitive
substring match on "Product") becomes schemaProduct; its offer comes
from either casing of the offers key, and a non-empty offers list
contributes its first element, never the whole list.  (Scoped to a
truthy first element; the falsy-offer/meta-fallback edge is settled
under C8.) -/
theorem c7_schema_first_product (url : String) (ru : Option String) (ua : String)
    (ts : Int) (pm : PageModel) (scripts : List (Option Json))
    (pre post : List Json) (b o : Json) (os : List Json)
    (hs : setupOk pm = true) (ht : teardownOk pm = true) (hp : pipelineOk ru pm = true)
    (hc : pm.content2Res = .ok scripts)
    (hblocks : find_json_ld scripts = pre ++ b :: post)
    (hpre : ∀ x ∈ pre, nonProductBlock x = true)
    (hb : isProductBlock b = true)
    (hoff : pick_first b ["offers", "Offers"] = some (Json.arr (o :: os)))
    (htr : o.truthy = true) :
    ∃ ev, capture_single url ru ua ts pm = .ok ev ∧
      ev.schema_product = b ∧ ev.schema_offer = o := by
  have hpass : schemaPass (find_json_ld scripts) = .ok (some (b, offerOf b)) := by
    rw [hblocks]; exact schemaPass_first_product post hpre hb
  have hoo : offerOf b = some o := by unfold offerOf; rw [hoff]
  rw [hoo] at hpass
  refine ⟨jobRecord url ru ts pm, capture_single_ok url ru ua ts hs ht, ?_, ?_⟩
  · rw [jobRecord_clean url ts hp]
    show (schemaResolve pm).1 = b
    unfold schemaResolve
    simp only [hc]
    rw [hpass]
    simp [passProduct, passOffer, htr]
  · rw [jobRecord_clean url ts hp]
    show (schemaResolve pm).2.1 = o
    unfold schemaResolve
    simp only [hc]
    rw [hpass]
    simp [passProduct, passOffer, htr]

/-- Witness for C7: a lowercase-typed block is passed over
(case-sensitivity), the Product block is selected, and schemaOffer is
the offers array's first element. -/
theorem c7_witness :
    (setupOk pmC7w = true ∧ teardownOk pmC7w = true ∧ pipelineOk none pmC7w = true ∧
     find_json_ld [none, some c7Pre, some c7Block] = [c7Pre] ++ c7Block :: [] ∧
     (∀ x ∈ [c7Pre], nonProductBlock x = true) ∧
     isProductBlock c7Block = true ∧
     c7Offer0.truthy = true) ∧
    (∃ ev, capture_single "https://shop.test/p/w7" none "ua" 9 pmC7w = .ok ev ∧
      ev.schema_product = c7Block ∧ ev.schema_offer = c7Offer0) :=
  ⟨⟨by decide, by decide, by decide, rfl,
    by intro x hx; rw [List.mem_singleton] at hx; subst hx; decide,
    by decide, by decide⟩,
   c7_schema_first_product "https://shop.test/p/w7" none "ua" 9 pmC7w
     [none, some c7Pre, some c7Block] [c7Pre] [] c7Block c7Offer0 [c7Offer1]
     (by decide) (by decide) (by decide) rfl rfl
     (by intro x hx; rw [List.mem_singleton] at hx; subst hx; decide)
     (by decide) rfl (by decide)⟩

/-- C8 counterexample: the structured-data pass yields an offer value —
the empty dict taken from `offers: [{}]` — yet the meta fallback is
still attempted and its record overwrites that value: the gate is
Python truthiness of the stored offer, not "no offer value was
yielded". -/
theorem c8_truthy_gate_cex :
    schemaPass (find_json_ld [some c8Block]) = .ok (some (c8Block, some (Json.obj []))) ∧
    (capture_single "https://shop.test/p/m" none "ua" 0 pmC8x).map
      (fun ev => (ev.schema_product, ev.schema_offer, ev.errors))
      = .ok (c8Block, Json.obj [("price", Json.str "9.99"), ("priceCurrency", Json.str "USD")], []) ∧
    pmC8x.metaPriceRes = .ok (some "9.99") :=
  ⟨rfl, rfl, rfl⟩

/-- C8 amended: the meta-tag fallback runs exactly when the offer left
by the structured-data pass is falsy under Python truthiness (absent,
null, or an empty container); a truthy meta price then yields the
{price, priceCurrency-or-null} record; with no meta price the pass
value is kept and no error is recorded. -/
theorem c8_meta_gate_amended (url : String) (ru : Option String) (ua : String)
    (ts : Int) (pm : PageModel) (scripts : List (Option Json))
    (found : Option (Json × Option Json))
    (hs : setupOk pm = true) (ht : teardownOk pm = true) (hp : pipelineOk ru pm = true)
    (hc : pm.content2Res = .ok scripts)
    (hpass : schemaPass (find_json_ld scripts) = .ok found) :
    ∃ ev, capture_single url ru ua ts pm = .ok ev ∧
      ((passOffer found).truthy = true →
        ev.schema_offer = passOffer found ∧ ev.errors = []) ∧
      ((passOffer found).truthy = false →
        ∀ p c, pm.metaPriceRes = .ok (some p) → p ≠ "" → pm.metaCurrRes = .ok c →
          ev.schema_offer =
            Json.obj [("price", Json.str p), ("priceCurrency", metaCurrJson c)] ∧
          ev.errors = []) ∧
      ((passOffer found).truthy = false → pm.metaPriceRes = .ok none →
        ev.schema_offer = passOffer found ∧ ev.errors = []) := by
  refine ⟨jobRecord url ru ts pm, capture_single_ok url ru ua ts hs ht, ?_, ?_, ?_⟩
  · intro htr
    rw [jobRecord_clean url ts hp]
    refine ⟨?_, ?_⟩
    · show (schemaResolve pm).2.1 = passOffer found
      unfold schemaResolve
      simp only [hc]
      rw [hpass]
      simp [htr]
    · show (schemaResolve pm).2.2 = []
      unfold schemaResolve
      simp only [hc]
      rw [hpass]
      simp [htr]
  · intro hfa p c hmp hpne hmc
    rw [jobRecord_clean url ts hp]
    have hmeta : metaOfferValue pm =
        some (Json.obj [("price", Json.str p), ("priceCurrency", metaCurrJson c)]) := by
      unfold metaOfferValue
      rw [hmp, hmc]
      simp [hpne]
    refine ⟨?_, ?_⟩
    · show (schemaResolve pm).2.1 = _
      unfold schemaResolve
      simp only [hc]
      rw [hpass]
      simp [hfa, hmeta]
    · show (schemaResolve pm).2.2 = []
      unfold schemaResolve
      simp only [hc]
      rw [hpass]
      simp [hfa, hmeta]
  · intro hfa hmp
    rw [jobRecord_clean url ts hp]
    have hmeta : metaOfferValue pm = none := by
      unfold metaOfferValue
      cases hmc : pm.metaCurrRes <;> simp [hmp]
    refine ⟨?_, ?_⟩
    · show (schemaResolve pm).2.1 = passOffer found
      unfold schemaResolve
      simp only [hc]
      rw [hpass]
      simp [hfa, hmeta]
    · show (schemaResolve pm).2.2 = []
      unfold schemaResolve
      simp only [hc]
      rw [hpass]
      simp [hfa, hmeta]

theorem string_eq_of_data (s t : String) (h : s.data = t.data) : s = t := by
  cases s; cases t; exact congrArg String.mk h

/-- C9: the slug is a pure function of the URL alone — explicitly the
last path segment (or the fixed default `"product"` when the path has
none) joined by `"-"` to the first ten characters of the URL's SHA-1
hex digest — and any two URLs whose truncated digests differ (the
overwhelming-probability event for distinct inputs) get distinct
slugs.  The digest is an injected library capability; determinism over
invocations and machines is intrinsic: the output depends on nothing
but the URL string. -/
theorem c9_slugify_deterministic (f : String → String) (u u1 u2 : String)
    (hlen : (strTake (f u1) 10).length = (strTake (f u2) 10).length)
    (hne : strTake (f u1) 10 ≠ strTake (f u2) 10) :
    slugify f u =
      (if pathName (urlPath u) == "" then "product" else pathName (urlPath u)) ++ "-" ++
        strTake (f u) 10 ∧
    slugify f u1 ≠ slugify f u2 := by
  constructor
  · rfl
  · intro heq
    apply hne
    simp only [slugify] at heq
    have hd := congrArg String.data heq
    rw [String.data_append, String.data_append, String.data_append,
        String.data_append] at hd
    have hlen2 : (strTake (f u1) 10).data.length = (strTake (f u2) 10).data.length := hlen
    exact string_eq_of_data _ _ (List.append_inj' hd hlen2).2

/-- Witness for C9: two URLs with distinct paths get distinct slugs,
and a concrete slug decomposes as segment-dash-hashprefix. -/
theorem c9_witness :
    ((strTake (fakeSha1 "/p/one") 10).length = (strTake (fakeSha1 "/p/two") 10).length ∧
     strTake (fakeSha1 "/p/one") 10 ≠ strTake (fakeSha1 "/p/two") 10) ∧
    (slugify fakeSha1 "https://shop.test/p/widget?ref=1" =
      (if pathName (urlPath "https://shop.test/p/widget?ref=1") == "" then "product"
       else pathName (urlPath "https://shop.test/p/widget?ref=1")) ++ "-" ++
        strTake (fakeSha1 "https://shop.test/p/widget?ref=1") 10 ∧
     slugify fakeSha1 "/p/one" ≠ slugify fakeSha1 "/p/two") :=
  ⟨⟨by decide, by decide⟩,
   c9_slugify_deterministic fakeSha1 "https://shop.test/p/widget?ref=1"
     "/p/one" "/p/two" (by decide) (by decide)⟩

/-- C10: two runs of the capture over the same static page content —
with independently drawn user agents and timestamps — produce records
that agree on every field except the timestamp: extraction is
deterministic. -/
theorem c10_capture_deterministic (url : String) (ru : Option String)
    (ua1 ua2 : String) (ts1 ts2 : Int) (pm : PageModel) :
    (capture_single url ru ua1 ts1 pm).map Evidence.core =
    (capture_single url ru ua2 ts2 pm).map Evidence.core := by
  unfold capture_single
  cases pm.launchRes <;> cases pm.newContextRes <;> cases pm.newPageRes <;>
    cases pm.contextCloseRes <;> cases pm.browserCloseRes <;>
      simp [Except.map, jobRecord, Evidence.core]

/-- Witness for C8: a Product block with no offers key (falsy pass
offer), meta price `"12.50"` and an empty currency meta — the fallback
fires and stores the price with a null currency. -/
theorem c8_amended_witness :
    (setupOk pmC8w = true ∧ teardownOk pmC8w = true ∧ pipelineOk none pmC8w = true ∧
     schemaPass (find_json_ld [some c8wBlock]) = .ok (some (c8wBlock, none)) ∧
     (passOffer (some (c8wBlock, none))).truthy = false) ∧
    (∃ ev, capture_single "https://shop.test/p/n" none "ua" 4 pmC8w = .ok ev ∧
      ((passOffer (some (c8wBlock, none))).truthy = true →
        ev.schema_offer = passOffer (some (c8wBlock, none)) ∧ ev.errors = []) ∧
      ((passOffer (some (c8wBlock, none))).truthy = false →
        ∀ p c, pmC8w.metaPriceRes = .ok (some p) → p ≠ "" → pmC8w.metaCurrRes = .ok c →
          ev.schema_offer =
            Json.obj [("price", Json.str p), ("priceCurrency", metaCurrJson c)] ∧
          ev.errors = []) ∧
      ((passOffer (some (c8wBlock, none))).truthy = false → pmC8w.metaPriceRes = .ok none →
        ev.schema_offer = passOffer (some (c8wBlock, none)) ∧ ev.errors = [])) :=
  ⟨⟨by decide, by decide, by decide, rfl, by decide⟩,
   c8_meta_gate_amended "https://shop.test/p/n" none "ua" 4 pmC8w
     [some c8wBlock] (some (c8wBlock, none))
     (by decide) (by decide) (by decide) rfl rfl⟩
